import Mathlib

/-- Payload of an event: the Python `data` dict, restricted to the fields the
processors read via `data.get(key, default)`. A `none` field means the key is
absent from the dict. -/
structure Payload where
  result : Option String := none
  direction : Option String := none
  damage : Option Int := none
  healing : Option Int := none
deriving Repr, DecidableEq

/-- `Event` from `event_bus.py`: event type, payload and timestamp
(`datetime` modelled as an integer number of seconds). -/
structure Event where
  event_type : String
  data : Payload
  timestamp : Int
deriving Repr, DecidableEq

/-- Association-list lookup, mirroring Python `dict` access for
`self._subscribers` (keys are event-type strings, values are handler lists;
handlers are identified by numeric ids). -/
def lookupReg (reg : List (String × List Nat)) (t : String) : Option (List Nat) :=
  match reg with
  | [] => none
  | (k, v) :: rest => if k = t then some v else lookupReg rest t

/-- `EventBus.subscribe`: if the type has no entry create one with an empty
list, then append the handler; duplicates are allowed. -/
def subscribeReg (reg : List (String × List Nat)) (t : String) (h : Nat) :
    List (String × List Nat) :=
  match reg with
  | [] => [(t, [h])]
  | (k, v) :: rest =>
      if k = t then (k, v ++ [h]) :: rest else (k, v) :: subscribeReg rest t h

/-- `list.remove(x)` from Python: drop the first occurrence of `x`;
`none` models the `ValueError` raised when `x` is absent. -/
def removeFirst (l : List Nat) (h : Nat) : Option (List Nat) :=
  match l with
  | [] => none
  | x :: rest =>
      if x = h then some rest
      else (removeFirst rest h).map (fun r => x :: r)

/-- The observable logging outcome of `EventBus.unsubscribe`: the method
itself always returns `None` to its caller; the only signal is the log line. -/
inductive UnsubLog where
  /-- `logger.info(...)` after a successful removal. -/
  | removedInfo : UnsubLog
  /-- `logger.warning("Callback not found ...")` when the type has an entry
  but the handler is not in it (the caught `ValueError` branch). -/
  | notFoundWarning : UnsubLog
  /-- No log at all: the `if event_type in self._subscribers` guard failed. -/
  | silent : UnsubLog
deriving Repr, DecidableEq

/-- `EventBus.unsubscribe`: when the type has an entry, remove the first
matching handler (logging info) or catch the `ValueError` and log a warning;
when the type has no entry, do nothing at all. Returns the new registry and
the log outcome; the Python method's return value is `None` in every case. -/
def unsubscribeReg (reg : List (String × List Nat)) (t : String) (h : Nat) :
    List (String × List Nat) × UnsubLog :=
  match lookupReg reg t with
  | none => (reg, UnsubLog.silent)
  | some l =>
      match removeFirst l h with
      | none => (reg, UnsubLog.notFoundWarning)
      | some l2 =>
          (reg.map (fun kv => if kv.1 = t then (kv.1, l2) else kv),
           UnsubLog.removedInfo)

/-- One bus operation a handler callback may perform on the bus while it is
being invoked (the callbacks of this repository only subscribe at
construction, but the dispatch semantics must be settled for callbacks that
mutate the registry mid-dispatch). -/
inductive BusAction where
  | sub : String → Nat → BusAction
  | unsub : String → Nat → BusAction
deriving Repr, DecidableEq

/-- What a handler callback does when invoked with an event: the bus
operations it performs, in order, and whether it then raises an exception. -/
structure HandlerBehavior where
  actions : List BusAction := []
  raises : Bool := false
deriving Repr, DecidableEq

/-- Environment assigning a behavior to each handler id for each event. -/
def HandlerEnv : Type := Nat → Event → HandlerBehavior

/-- Bus state: the subscriber registry and the event history, plus two ghost
observation logs used only by the specification — the sequence of handler
invocations and the handlers whose exceptions were caught and logged by
`logger.error` inside `publish`. -/
structure BusState where
  subscribers : List (String × List Nat)
  history : List Event
  invoked : List Nat
  errorsLogged : List Nat
deriving Repr, DecidableEq

/-- The empty bus produced by `EventBus.__init__`. -/
def initBus : BusState :=
  { subscribers := [], history := [], invoked := [], errorsLogged := [] }

/-- Apply the bus operations a callback performed, in order, to the
registry. -/
def applyActions (reg : List (String × List Nat)) :
    List BusAction → List (String × List Nat)
  | [] => reg
  | BusAction.sub t h :: rest => applyActions (subscribeReg reg t h) rest
  | BusAction.unsub t h :: rest => applyActions (unsubscribeReg reg t h).1 rest

/-- The dispatch loop of `EventBus.publish`:
`for callback in self._subscribers[event_type]` iterates the live list with
an index-based iterator, so the handler fetched at step `i` is element `i` of
the list as it stands at that step, and iteration ends when the index reaches
the current length. A raising callback is caught (`except Exception`),
logged, and the loop continues. `fuel` bounds the number of iterations (a
callback that keeps subscribing new callbacks to the same type makes the
Python loop run unboundedly). -/
def dispatchFrom (env : HandlerEnv) (t : String) (ev : Event) :
    Nat → Nat → BusState → BusState
  | 0, _, st => st
  | fuel + 1, i, st =>
      let cur := (lookupReg st.subscribers t).getD []
      if hlt : i < cur.length then
        let h := cur.get ⟨i, hlt⟩
        let b := env h ev
        let st2 : BusState :=
          { st with
            subscribers := applyActions st.subscribers b.actions,
            invoked := st.invoked ++ [h],
            errorsLogged :=
              st.errorsLogged ++ (if b.raises then [h] else []) }
        dispatchFrom env t ev fuel (i + 1) st2
      else st

/-- `EventBus.publish`: build the event, append it to the history
unconditionally, and only if the type has a registry entry run the dispatch
loop over the live list. -/
def publish (env : HandlerEnv) (fuel : Nat) (t : String) (d : Payload)
    (ts : Int) (st : BusState) : BusState :=
  let ev : Event := { event_type := t, data := d, timestamp := ts }
  let st1 : BusState := { st with history := st.history ++ [ev] }
  match lookupReg st1.subscribers t with
  | none => st1
  | some _ => dispatchFrom env t ev fuel 0 st1

/-- `EventBus.get_subscribers_count`: Python checks `if event_type:`, so both
`None` and the empty string fall through to the total across all types. -/
def get_subscribers_count (reg : List (String × List Nat))
    (event_type : Option String) : Nat :=
  match event_type with
  | some t =>
      if t = "" then (reg.map (fun kv => kv.2.length)).sum
      else ((lookupReg reg t).getD []).length
  | none => (reg.map (fun kv => kv.2.length)).sum

/-- State of `BattleCounterProcessor`. -/
structure BattleState where
  battle_count : Nat
  battles_won : Nat
  battles_lost : Nat
  last_battle_time : Option Int
deriving Repr, DecidableEq

/-- `BattleCounterProcessor.__init__` state. -/
def initBattle : BattleState :=
  { battle_count := 0, battles_won := 0, battles_lost := 0,
    last_battle_time := none }

/-- `on_battle_started`: increment the count and record the event
timestamp. -/
def on_battle_started (s : BattleState) (ev : Event) : BattleState :=
  { s with battle_count := s.battle_count + 1,
           last_battle_time := some ev.timestamp }

/-- `on_battle_ended`: `event.data.get("result", "unknown")`; `"won"`
increments wins, `"lost"` increments losses, anything else neither. -/
def on_battle_ended (s : BattleState) (ev : Event) : BattleState :=
  let result := ev.data.result.getD "unknown"
  if result = "won" then { s with battles_won := s.battles_won + 1 }
  else if result = "lost" then { s with battles_lost := s.battles_lost + 1 }
  else s

/-- Snapshot returned by `BattleCounterProcessor.get_statistics`
(`win_rate`, a Python float division, modelled as a rational). -/
structure BattleStats where
  total_battles : Nat
  battles_won : Nat
  battles_lost : Nat
  win_rate : ℚ
  last_battle_time : Option Int
deriving Repr, DecidableEq

/-- `BattleCounterProcessor.get_statistics`. -/
def battleStatistics (s : BattleState) : BattleStats :=
  { total_battles := s.battle_count,
    battles_won := s.battles_won,
    battles_lost := s.battles_lost,
    win_rate :=
      if s.battle_count > 0 then (s.battles_won : ℚ) / (s.battle_count : ℚ)
      else 0,
    last_battle_time := s.last_battle_time }

/-- The event routing realised by the processor's subscriptions in
`__init__`: the bus calls `on_battle_started` exactly for `battle_started`
events and `on_battle_ended` exactly for `battle_ended` events. -/
def battleStep (s : BattleState) (ev : Event) : BattleState :=
  if ev.event_type = "battle_started" then on_battle_started s ev
  else if ev.event_type = "battle_ended" then on_battle_ended s ev
  else s

/-- State of `HealthMonitor`. -/
structure HealthState where
  damage_taken : Int
  healing_received : Int
  knockouts : Nat
  current_health : Int
  max_health : Int
deriving Repr, DecidableEq

/-- `HealthMonitor.__init__` state: health 100 of 100, all counters zero. -/
def initHealth : HealthState :=
  { damage_taken := 0, healing_received := 0, knockouts := 0,
    current_health := 100, max_health := 100 }

/-- `on_player_damaged`: accumulate the raw amount, clamp health at 0. -/
def on_player_damaged (s : HealthState) (ev : Event) : HealthState :=
  let damage := ev.data.damage.getD 0
  { s with damage_taken := s.damage_taken + damage,
           current_health := max 0 (s.current_health - damage) }

/-- `on_player_healed`: accumulate the raw amount, clamp health at
`max_health`. -/
def on_player_healed (s : HealthState) (ev : Event) : HealthState :=
  let healing := ev.data.healing.getD 0
  { s with healing_received := s.healing_received + healing,
           current_health := min s.max_health (s.current_health + healing) }

/-- `on_player_fainted`: increment knockouts and force health to 0. -/
def on_player_fainted (s : HealthState) (_ev : Event) : HealthState :=
  { s with knockouts := s.knockouts + 1, current_health := 0 }

/-- Snapshot returned by `HealthMonitor.get_statistics`. -/
structure HealthStats where
  current_health : Int
  max_health : Int
  total_damage_taken : Int
  total_healing_received : Int
  knockouts : Nat
  net_damage : Int
deriving Repr, DecidableEq

/-- `HealthMonitor.get_statistics`. -/
def healthStatistics (s : HealthState) : HealthStats :=
  { current_health := s.current_health,
    max_health := s.max_health,
    total_damage_taken := s.damage_taken,
    total_healing_received := s.healing_received,
    knockouts := s.knockouts,
    net_damage := s.damage_taken - s.healing_received }

/-- The event routing realised by `HealthMonitor`'s subscriptions. -/
def healthStep (s : HealthState) (ev : Event) : HealthState :=
  if ev.event_type = "player_damaged" then on_player_damaged s ev
  else if ev.event_type = "player_healed" then on_player_healed s ev
  else if ev.event_type = "player_fainted" then on_player_fainted s ev
  else s

/-- State of `GameTimeTracker`; `datetime` values are integer seconds, and
the truthiness tests `if not self.start_time` / `if self.current_pause_start`
on the Python side test against `None` (a `datetime` is always truthy), so
they are `Option` emptiness tests here. -/
structure TimeState where
  start_time : Option Int
  end_time : Option Int
  pause_count : Nat
  total_pause_duration : Int
  current_pause_start : Option Int
deriving Repr, DecidableEq

/-- `GameTimeTracker.__init__` state. -/
def initTime : TimeState :=
  { start_time := none, end_time := none, pause_count := 0,
    total_pause_duration := 0, current_pause_start := none }

/-- `on_game_started`: record (overwrite) the start time. -/
def on_game_started (s : TimeState) (ev : Event) : TimeState :=
  { s with start_time := some ev.timestamp }

/-- `on_game_ended`: record the end time. -/
def on_game_ended (s : TimeState) (ev : Event) : TimeState :=
  { s with end_time := some ev.timestamp }

/-- `on_game_paused`: increment the pause count and open a pause. -/
def on_game_paused (s : TimeState) (ev : Event) : TimeState :=
  { s with pause_count := s.pause_count + 1,
           current_pause_start := some ev.timestamp }

/-- `on_game_resumed`: only if a pause is open, accumulate its duration and
close it; otherwise the body is skipped entirely. -/
def on_game_resumed (s : TimeState) (ev : Event) : TimeState :=
  match s.current_pause_start with
  | some p =>
      { s with total_pause_duration := s.total_pause_duration + (ev.timestamp - p),
               current_pause_start := none }
  | none => s

/-- Snapshot returned by `GameTimeTracker.get_statistics`: either the
distinguished `{"status": "not_started"}` dict or the full statistics
dict. -/
inductive TimeStats where
  | notStarted : TimeStats
  | running
      (start_time : Int) (end_time : Option Int)
      (total_duration_seconds : Int) (active_duration_seconds : Int)
      (pause_count : Nat) (total_pause_duration_seconds : Int) : TimeStats
deriving Repr, DecidableEq

/-- `GameTimeTracker.get_statistics`; `now` is the value `datetime.now()`
would return at the moment of the call, used when no end time is recorded. -/
def timeStatistics (s : TimeState) (now : Int) : TimeStats :=
  match s.start_time with
  | none => TimeStats.notStarted
  | some st =>
      let e := s.end_time.getD now
      let total := e - st
      TimeStats.running st s.end_time total (total - s.total_pause_duration)
        s.pause_count s.total_pause_duration

/-- The event routing realised by `GameTimeTracker`'s subscriptions. -/
def timeStep (s : TimeState) (ev : Event) : TimeState :=
  if ev.event_type = "game_started" then on_game_started s ev
  else if ev.event_type = "game_ended" then on_game_ended s ev
  else if ev.event_type = "game_paused" then on_game_paused s ev
  else if ev.event_type = "game_resumed" then on_game_resumed s ev
  else s

/-- State of `ReportGenerator` proper: the processors mapping is held by
reference and passed explicitly below; the only mutable field is the
counter. -/
structure RGState where
  reports_generated : Nat
deriving Repr, DecidableEq

/-- A registered processor entry as the generator sees it: its name and, if
`hasattr(processor, "get_statistics")` holds, the snapshot that invoking
`get_statistics()` at this instant yields (`V` is the snapshot type). -/
abbrev Processors (V : Type) : Type := List (String × Option V)

/-- `ReportGenerator.generate_report`: a fresh report stamped with the
current instant whose `statistics` maps each registered processor exposing a
statistics method to its snapshot under its name. -/
structure Report (V : Type) where
  generated_at : Int
  statistics : List (String × V)
deriving Repr, DecidableEq

/-- `ReportGenerator.generate_report`. -/
def generate_report {V : Type} (procs : Processors V) (now : Int) :
    Report V :=
  { generated_at := now,
    statistics := procs.filterMap (fun nv => nv.2.map (fun v => (nv.1, v))) }

/-- `ReportGenerator.on_generate_report`: generate (and print) the report,
then increment `reports_generated`. -/
def on_generate_report {V : Type} (procs : Processors V) (now : Int)
    (s : RGState) : RGState × Report V :=
  ({ reports_generated := s.reports_generated + 1 },
   generate_report procs now)

/-- `ReportGenerator.on_game_ended`: generate (and print) the report; the
counter is not touched. -/
def rg_on_game_ended {V : Type} (procs : Processors V) (now : Int)
    (s : RGState) : RGState × Report V :=
  (s, generate_report procs now)

/-- `ReportGenerator.get_statistics`. -/
def rgStatistics (s : RGState) : Nat := s.reports_generated

/-- The event type a bus action targets. -/
def BusAction.target : BusAction → String
  | BusAction.sub t _ => t
  | BusAction.unsub t _ => t

/-- A sequence of `publish` calls, each given as
(event type, payload, timestamp). -/
def runPublishes (env : HandlerEnv) (fuel : Nat) :
    List (String × Payload × Int) → BusState → BusState
  | [], st => st
  | c :: rest, st =>
      runPublishes env fuel rest (publish env fuel c.1 c.2.1 c.2.2 st)

/-- Environment for the live-iteration counterexample: handler 0, when
invoked, calls `subscribe("e", handler 1)`; every other handler does
nothing. -/
def envLiveSub : HandlerEnv := fun h _ =>
  if h = 0 then { actions := [BusAction.sub "e" 1] } else {}

/-- A bus on which only handler 0 is registered for `"e"`. -/
def stOneSub : BusState :=
  { subscribers := [("e", [0])], history := [], invoked := [],
    errorsLogged := [] }

/-- The environment in which every callback does nothing. -/
def envPlain : HandlerEnv := fun _ _ => { }

/-- A bus on which handlers 5 and 7 are registered for `"e"`. -/
def stTwoSubs : BusState :=
  { subscribers := [("e", [5, 7])], history := [], invoked := [],
    errorsLogged := [] }

/-- Environment in which handler 5 raises and every other handler runs
normally; nobody mutates the registry. -/
def envRaise : HandlerEnv := fun h _ =>
  if h = 5 then { raises := true } else { }

/-- Three battles started, then ended with results won, lost, won. -/
def battleScenario : List Event :=
  [{ event_type := "battle_started", data := {}, timestamp := 1 },
   { event_type := "battle_started", data := {}, timestamp := 2 },
   { event_type := "battle_started", data := {}, timestamp := 3 },
   { event_type := "battle_ended", data := { result := some "won" }, timestamp := 4 },
   { event_type := "battle_ended", data := { result := some "lost" }, timestamp := 5 },
   { event_type := "battle_ended", data := { result := some "won" }, timestamp := 6 }]

/-- Concrete `battle_ended` event with result `"won"`. -/
def evWon : Event :=
  { event_type := "battle_ended", data := { result := some "won" }, timestamp := 0 }

/-- Concrete `battle_ended` event with result `"lost"`. -/
def evLost : Event :=
  { event_type := "battle_ended", data := { result := some "lost" }, timestamp := 0 }

/-- Concrete `battle_ended` event with the unrecognized result `"draw"`. -/
def evDraw : Event :=
  { event_type := "battle_ended", data := { result := some "draw" }, timestamp := 0 }

/-- Concrete `player_damaged` event with damage 25. -/
def evDamage25 : Event :=
  { event_type := "player_damaged", data := { damage := some 25 }, timestamp := 0 }

/-- Concrete `player_healed` event with healing 30. -/
def evHeal30 : Event :=
  { event_type := "player_healed", data := { healing := some 30 }, timestamp := 0 }

/-- Concrete `player_fainted` event. -/
def evFaint : Event :=
  { event_type := "player_fainted", data := {}, timestamp := 0 }

/-- Damage 25, damage 15, then heal 30, starting from full health 100. -/
def healthScenario : List Event :=
  [{ event_type := "player_damaged", data := { damage := some 25 }, timestamp := 1 },
   { event_type := "player_damaged", data := { damage := some 15 }, timestamp := 2 },
   { event_type := "player_healed", data := { healing := some 30 }, timestamp := 3 }]

/-- Start at `t0`, pause at `t0+10`, resume at `t0+15`, end at `t0+20`. -/
def timeScenario (t0 : Int) : List Event :=
  [{ event_type := "game_started", data := {}, timestamp := t0 },
   { event_type := "game_paused", data := {}, timestamp := t0 + 10 },
   { event_type := "game_resumed", data := {}, timestamp := t0 + 15 },
   { event_type := "game_ended", data := {}, timestamp := t0 + 20 }]

/-! ## Lemmas and claim theorems -/

theorem lookupReg_subscribeReg_ne (reg : List (String × List Nat))
    (t t2 : String) (h : Nat) (hne : t ≠ t2) :
    lookupReg (subscribeReg reg t h) t2 = lookupReg reg t2 := by
  induction reg with
  | nil => simp [subscribeReg, lookupReg, hne]
  | cons kv rest ih =>
      obtain ⟨k, v⟩ := kv
      by_cases hk : k = t
      · subst hk
        simp [subscribeReg, lookupReg, hne]
      · simp [subscribeReg, hk, lookupReg, ih]

theorem lookupReg_map_ne (reg : List (String × List Nat))
    (t t2 : String) (l2 : List Nat) (hne : t ≠ t2) :
    lookupReg (reg.map (fun kv => if kv.1 = t then (kv.1, l2) else kv)) t2
      = lookupReg reg t2 := by
  induction reg with
  | nil => rfl
  | cons kv rest ih =>
      obtain ⟨k, v⟩ := kv
      simp only [List.map_cons]
      by_cases hk : k = t
      · subst hk
        rw [if_pos rfl]
        show (if k = t2 then some l2 else _) = (if k = t2 then some v else _)
        rw [if_neg hne, if_neg hne, ih]
      · rw [if_neg hk]
        show (if k = t2 then some v else _) = (if k = t2 then some v else _)
        by_cases hk2 : k = t2
        · rw [if_pos hk2, if_pos hk2]
        · rw [if_neg hk2, if_neg hk2, ih]

theorem lookupReg_unsubscribeReg_ne (reg : List (String × List Nat))
    (t t2 : String) (h : Nat) (hne : t ≠ t2) :
    lookupReg (unsubscribeReg reg t h).1 t2 = lookupReg reg t2 := by
  rcases hl : lookupReg reg t with _ | l
  · simp [unsubscribeReg, hl]
  · rcases hr : removeFirst l h with _ | l2
    · simp [unsubscribeReg, hl, hr]
    · simpa [unsubscribeReg, hl, hr] using lookupReg_map_ne reg t t2 l2 hne

theorem applyActions_lookup_ne (t2 : String) :
    ∀ (acts : List BusAction) (reg : List (String × List Nat)),
      (∀ a ∈ acts, a.target ≠ t2) →
      lookupReg (applyActions reg acts) t2 = lookupReg reg t2 := by
  intro acts
  induction acts with
  | nil => intro reg _; rfl
  | cons a rest ih =>
      intro reg hact
      cases a with
      | sub t h =>
          have ht : t ≠ t2 := hact (BusAction.sub t h) (List.mem_cons_self _ _)
          rw [show applyActions reg (BusAction.sub t h :: rest)
                = applyActions (subscribeReg reg t h) rest from rfl,
            ih _ (fun a ha => hact a (List.mem_cons_of_mem _ ha)),
            lookupReg_subscribeReg_ne _ _ _ _ ht]
      | unsub t h =>
          have ht : t ≠ t2 := hact (BusAction.unsub t h) (List.mem_cons_self _ _)
          rw [show applyActions reg (BusAction.unsub t h :: rest)
                = applyActions (unsubscribeReg reg t h).1 rest from rfl,
            ih _ (fun a ha => hact a (List.mem_cons_of_mem _ ha)),
            lookupReg_unsubscribeReg_ne _ _ _ _ ht]

theorem dispatchFrom_history (env : HandlerEnv) (t : String) (ev : Event) :
    ∀ (fuel i : Nat) (st : BusState),
      (dispatchFrom env t ev fuel i st).history = st.history := by
  intro fuel
  induction fuel with
  | zero => intro i st; rfl
  | succ fuel ih =>
      intro i st
      rw [dispatchFrom]
      split
      · exact ih _ _
      · rfl

theorem publish_history (env : HandlerEnv) (fuel : Nat) (t : String)
    (d : Payload) (ts : Int) (st : BusState) :
    (publish env fuel t d ts st).history
      = st.history ++ [{ event_type := t, data := d, timestamp := ts }] := by
  rw [publish]
  split
  · rfl
  · exact dispatchFrom_history env t _ fuel 0 _

/-- When no callback mutates the registry entry of the dispatched type, the
dispatch loop from index `i` invokes exactly the remaining registered
handlers in order and logs exactly the raising handlers among them. -/
theorem dispatchFrom_run (env : HandlerEnv) (t : String) (ev : Event)
    (l : List Nat)
    (hact : ∀ h e a, a ∈ (env h e).actions → BusAction.target a ≠ t) :
    ∀ (fuel i : Nat) (st : BusState), lookupReg st.subscribers t = some l →
      l.length ≤ i + fuel →
      (dispatchFrom env t ev fuel i st).invoked = st.invoked ++ l.drop i
      ∧ (dispatchFrom env t ev fuel i st).errorsLogged
          = st.errorsLogged
            ++ (l.drop i).filter (fun h => (env h ev).raises) := by
  intro fuel
  induction fuel with
  | zero =>
      intro i st hl hle
      rw [Nat.add_zero] at hle
      rw [List.drop_eq_nil_of_le hle]
      simp [dispatchFrom]
  | succ fuel ih =>
      intro i st hl hle
      by_cases hlt : i < l.length
      · have hstep : dispatchFrom env t ev (fuel + 1) i st
            = dispatchFrom env t ev fuel (i + 1)
              { st with
                subscribers := applyActions st.subscribers
                  (env (l.get ⟨i, hlt⟩) ev).actions,
                invoked := st.invoked ++ [l.get ⟨i, hlt⟩],
                errorsLogged := st.errorsLogged
                  ++ (if (env (l.get ⟨i, hlt⟩) ev).raises
                      then [l.get ⟨i, hlt⟩] else []) } := by
          have hgd : (lookupReg st.subscribers t).getD [] = l := by
            rw [hl]; rfl
          subst hgd
          rw [dispatchFrom]
          simp only [dif_pos hlt]
        have hl2 : lookupReg (applyActions st.subscribers
            (env (l.get ⟨i, hlt⟩) ev).actions) t = some l := by
          rw [applyActions_lookup_ne t _ _
            (fun a ha => hact (l.get ⟨i, hlt⟩) ev a ha)]
          exact hl
        obtain ⟨h1, h2⟩ := ih (i + 1)
          { st with
            subscribers := applyActions st.subscribers
              (env (l.get ⟨i, hlt⟩) ev).actions,
            invoked := st.invoked ++ [l.get ⟨i, hlt⟩],
            errorsLogged := st.errorsLogged
              ++ (if (env (l.get ⟨i, hlt⟩) ev).raises
                  then [l.get ⟨i, hlt⟩] else []) }
          hl2 (by omega)
        constructor
        · rw [hstep, h1]
          show st.invoked ++ [l.get ⟨i, hlt⟩] ++ l.drop (i + 1)
              = st.invoked ++ l.drop i
          rw [List.append_assoc, List.singleton_append,
            show (l.get ⟨i, hlt⟩ : Nat) = l[i] from rfl,
            ← List.drop_eq_getElem_cons hlt]
        · rw [hstep, h2]
          show st.errorsLogged
              ++ (if (env (l.get ⟨i, hlt⟩) ev).raises
                  then [l.get ⟨i, hlt⟩] else [])
              ++ (l.drop (i + 1)).filter (fun h => (env h ev).raises)
            = st.errorsLogged ++ (l.drop i).filter (fun h => (env h ev).raises)
          rw [List.append_assoc, List.drop_eq_getElem_cons hlt,
            List.filter_cons,
            show (l[i] : Nat) = l.get ⟨i, hlt⟩ from rfl]
          by_cases hr : (env (l.get ⟨i, hlt⟩) ev).raises
          · rw [if_pos hr, if_pos hr, List.singleton_append]
          · rw [if_neg hr, if_neg hr, List.nil_append]
      · have hstop : dispatchFrom env t ev (fuel + 1) i st = st := by
          rw [dispatchFrom]
          simp only [hl, Option.getD_some, dif_neg hlt]
        rw [hstop, List.drop_eq_nil_of_le (by omega)]
        simp

/-- `publish` under non-mutating callbacks: invokes exactly the handlers
registered for the type at dispatch start, in order, and logs exactly the
raising ones. -/
theorem publish_run (env : HandlerEnv) (t : String) (d : Payload) (ts : Int)
    (st : BusState) (fuel : Nat)
    (hact : ∀ h e a, a ∈ (env h e).actions → BusAction.target a ≠ t)
    (hfuel : ((lookupReg st.subscribers t).getD []).length ≤ fuel) :
    (publish env fuel t d ts st).invoked
        = st.invoked ++ (lookupReg st.subscribers t).getD []
    ∧ (publish env fuel t d ts st).errorsLogged
        = st.errorsLogged
          ++ ((lookupReg st.subscribers t).getD []).filter
              (fun h => (env h { event_type := t, data := d, timestamp := ts }).raises) := by
  rcases hl : lookupReg st.subscribers t with _ | l
  · rw [publish]
    simp only [hl]
    simp
  · rw [publish]
    simp only [hl, Option.getD_some]
    have := dispatchFrom_run env t
      { event_type := t, data := d, timestamp := ts } l hact fuel 0
      { st with history := st.history
          ++ [{ event_type := t, data := d, timestamp := ts }] }
      hl (by rw [hl] at hfuel; simpa using hfuel)
    simpa using this

theorem runPublishes_history_length (env : HandlerEnv) (fuel : Nat) :
    ∀ (calls : List (String × Payload × Int)) (st : BusState),
      (runPublishes env fuel calls st).history.length
        = st.history.length + calls.length := by
  intro calls
  induction calls with
  | nil => intro st; rfl
  | cons c rest ih =>
      intro st
      rw [runPublishes, ih, publish_history]
      simp only [List.length_append, List.length_cons, List.length_nil]
      omega

theorem removeFirst_eq_none (l : List Nat) (h : Nat) :
    removeFirst l h = none ↔ h ∉ l := by
  induction l with
  | nil => simp [removeFirst]
  | cons x rest ih =>
      by_cases hx : x = h
      · subst hx
        simp [removeFirst]
      · simp [removeFirst, hx, ih, Option.map_eq_none', Ne.symm hx]

theorem removeFirst_eq_erase (l : List Nat) (h : Nat) (hm : h ∈ l) :
    removeFirst l h = some (l.erase h) := by
  induction l with
  | nil => cases hm
  | cons x rest ih =>
      by_cases hx : x = h
      · subst hx
        simp [removeFirst, List.erase_cons_head]
      · have hm2 : h ∈ rest := by
          rcases List.mem_cons.mp hm with h1 | h2
          · exact absurd h1.symm hx
          · exact h2
        rw [removeFirst, if_neg hx, ih hm2, Option.map_some',
          List.erase_cons_tail]
        simp [hx]

theorem lookupReg_map_self (reg : List (String × List Nat)) (t : String)
    (l l2 : List Nat) (hl : lookupReg reg t = some l) :
    lookupReg (reg.map (fun kv => if kv.1 = t then (kv.1, l2) else kv)) t
      = some l2 := by
  induction reg with
  | nil => cases hl
  | cons kv rest ih =>
      obtain ⟨k, v⟩ := kv
      simp only [List.map_cons]
      by_cases hk : k = t
      · subst hk
        rw [if_pos rfl]
        show (if k = k then some l2 else _) = some l2
        rw [if_pos rfl]
      · rw [if_neg hk]
        show (if k = t then some v else _) = some l2
        rw [if_neg hk]
        rw [lookupReg, if_neg hk] at hl
        exact ih hl

/-- C1 counterexample: `publish` iterates the live subscriber list, not a
snapshot. At dispatch start only handler 0 is registered for `"e"`, yet the
in-progress publish also invokes handler 1, which handler 0 subscribed
during the dispatch — so a subscribe performed by a handler during dispatch
does affect the set of handlers invoked by the in-progress publish. -/
theorem C1_snapshot_counterexample :
    lookupReg stOneSub.subscribers "e" = some [0]
    ∧ (publish envLiveSub 4 "e" {} 0 stOneSub).invoked = [0, 1] := by
  refine ⟨rfl, ?_⟩
  decide

/-- C1 (amended): the dispatcher iterates the live subscriber list of the
published type; whenever no callback run by this dispatch subscribes or
unsubscribes on that type, it invokes exactly the handlers registered for
the type at dispatch start, in registration order (mutations of that type's
list during dispatch do reach the in-progress publish, as the
counterexample shows). -/
theorem C1_registered_order (env : HandlerEnv) (t : String)
    (d : Payload) (ts : Int) (st : BusState) (fuel : Nat)
    (hact : ∀ h e a, a ∈ (env h e).actions → BusAction.target a ≠ t)
    (hfuel : ((lookupReg st.subscribers t).getD []).length ≤ fuel) :
    (publish env fuel t d ts st).invoked
      = st.invoked ++ (lookupReg st.subscribers t).getD [] :=
  (publish_run env t d ts st fuel hact hfuel).1

/-- Witness for `C1_registered_order`: two do-nothing handlers registered
for `"e"` are both invoked, in registration order. -/
theorem C1_registered_order_witness :
    (∀ h e a, a ∈ (envPlain h e).actions → BusAction.target a ≠ "e")
    ∧ ((lookupReg stTwoSubs.subscribers "e").getD []).length ≤ 2
    ∧ (publish envPlain 2 "e" {} 0 stTwoSubs).invoked
        = stTwoSubs.invoked ++ (lookupReg stTwoSubs.subscribers "e").getD [] := by
  refine ⟨?_, by decide, ?_⟩
  · intro h e a ha
    simp [envPlain] at ha
  · exact C1_registered_order envPlain "e" {} 0 stTwoSubs 2
      (by intro h e a ha; simp [envPlain] at ha) (by decide)

/-- C2: over any sequence of `publish` calls — whatever the subscriber
counts and whatever the callbacks do, including raising — the history grows
by exactly one event per call; moreover a single `publish` leaves the
history equal to the old history with exactly the new event appended (the
append happens before any handler runs and no handler invocation alters
it). -/
theorem C2_history_length (env : HandlerEnv) (fuel : Nat)
    (calls : List (String × Payload × Int)) (st : BusState)
    (t : String) (d : Payload) (ts : Int) :
    (runPublishes env fuel calls st).history.length
        = st.history.length + calls.length
    ∧ (publish env fuel t d ts st).history
        = st.history ++ [{ event_type := t, data := d, timestamp := ts }] :=
  ⟨runPublishes_history_length env fuel calls st,
   publish_history env fuel t d ts st⟩

/-- C3: a raising callback is caught inside the dispatch loop: `publish`
still invokes every registered handler for the type, in order (the raisers
included), records each raiser in the error log instead of propagating, and
the event remains appended to the history. -/
theorem C3_raising_handler_isolated (env : HandlerEnv) (t : String)
    (d : Payload) (ts : Int) (st : BusState) (fuel : Nat)
    (hact : ∀ h e a, a ∈ (env h e).actions → BusAction.target a ≠ t)
    (hfuel : ((lookupReg st.subscribers t).getD []).length ≤ fuel) :
    (publish env fuel t d ts st).invoked
        = st.invoked ++ (lookupReg st.subscribers t).getD []
    ∧ (publish env fuel t d ts st).errorsLogged
        = st.errorsLogged
          ++ ((lookupReg st.subscribers t).getD []).filter
              (fun h => (env h { event_type := t, data := d, timestamp := ts }).raises)
    ∧ (publish env fuel t d ts st).history
        = st.history ++ [{ event_type := t, data := d, timestamp := ts }] :=
  ⟨(publish_run env t d ts st fuel hact hfuel).1,
   (publish_run env t d ts st fuel hact hfuel).2,
   publish_history env fuel t d ts st⟩

/-- Witness for `C3_raising_handler_isolated`: with handlers 5 and 7
registered for `"e"` and handler 5 raising, both are still invoked, the
raise is logged, and the event is in the history. -/
theorem C3_raising_handler_isolated_witness :
    (∀ h e a, a ∈ (envRaise h e).actions → BusAction.target a ≠ "e")
    ∧ ((lookupReg stTwoSubs.subscribers "e").getD []).length ≤ 2
    ∧ ((publish envRaise 2 "e" {} 0 stTwoSubs).invoked
          = stTwoSubs.invoked ++ (lookupReg stTwoSubs.subscribers "e").getD []
       ∧ (publish envRaise 2 "e" {} 0 stTwoSubs).errorsLogged
          = stTwoSubs.errorsLogged
            ++ ((lookupReg stTwoSubs.subscribers "e").getD []).filter
                (fun h => (envRaise h { event_type := "e", data := {}, timestamp := 0 }).raises)
       ∧ (publish envRaise 2 "e" {} 0 stTwoSubs).history
          = stTwoSubs.history
            ++ [{ event_type := "e", data := {}, timestamp := 0 }]) := by
  refine ⟨?_, by decide, ?_⟩
  · intro h e a ha
    by_cases h5 : h = 5 <;> simp [envRaise, h5] at ha
  · exact C3_raising_handler_isolated envRaise "e" {} 0 stTwoSubs 2
      (by intro h e a ha; by_cases h5 : h = 5 <;> simp [envRaise, h5] at ha)
      (by decide)

/-- C4 counterexample: unsubscribing a pair whose event type has no registry
entry at all is a completely silent no-op — the registry is unchanged and no
"not found" indication of any kind is produced (no warning is logged, and the
Python method returns `None` exactly as it does on success), refuting the
claim that every miss is signalled to the caller. -/
theorem C4_silent_miss_counterexample :
    unsubscribeReg [("a", [1])] "b" 2 = ([("a", [1])], UnsubLog.silent) := by
  decide

/-- C4 (amended): `unsubscribe` never raises and leaves the registry
unchanged on any miss; a miss on a type that has an entry is signalled only
by a logged warning (the method returns `None` to its caller in every case),
while a miss on a type with no entry at all produces no signal whatsoever;
when a match exists exactly the first matching registration is removed and
all other types are untouched. -/
theorem C4_unsubscribe_behavior (reg : List (String × List Nat))
    (t : String) (h : Nat) :
    (h ∉ (lookupReg reg t).getD [] → (unsubscribeReg reg t h).1 = reg)
    ∧ (lookupReg reg t = none
        → (unsubscribeReg reg t h).2 = UnsubLog.silent)
    ∧ (∀ l, lookupReg reg t = some l → h ∉ l
        → (unsubscribeReg reg t h).2 = UnsubLog.notFoundWarning)
    ∧ (∀ l, lookupReg reg t = some l → h ∈ l
        → lookupReg (unsubscribeReg reg t h).1 t = some (l.erase h)
          ∧ ∀ t2, t2 ≠ t
              → lookupReg (unsubscribeReg reg t h).1 t2 = lookupReg reg t2) := by
  refine ⟨?_, ?_, ?_, ?_⟩
  · intro hm
    rcases hl : lookupReg reg t with _ | l
    · rw [unsubscribeReg, hl]
    · rw [hl] at hm
      simp only [unsubscribeReg, hl,
        (removeFirst_eq_none l h).mpr (by simpa using hm)]
  · intro hl
    rw [unsubscribeReg, hl]
  · intro l hl hm
    simp only [unsubscribeReg, hl, (removeFirst_eq_none l h).mpr hm]
  · intro l hl hm
    constructor
    · simp only [unsubscribeReg, hl, removeFirst_eq_erase l h hm]
      exact lookupReg_map_self reg t l (l.erase h) hl
    · intro t2 ht2
      simp only [unsubscribeReg, hl, removeFirst_eq_erase l h hm]
      exact lookupReg_map_ne reg t t2 (l.erase h) (Ne.symm ht2)

/-- Witness for `C4_unsubscribe_behavior`: on `[("a", [1, 2, 1])]`,
unsubscribing `("a", 1)` removes only the first of the two registrations of
handler 1, and unsubscribing the absent `("a", 9)` warns and leaves the
registry unchanged. -/
theorem C4_unsubscribe_behavior_witness :
    (lookupReg [("a", [1, 2, 1])] "a" = some [1, 2, 1] ∧ 1 ∈ [1, 2, 1]
      ∧ lookupReg (unsubscribeReg [("a", [1, 2, 1])] "a" 1).1 "a"
          = some [2, 1])
    ∧ (9 ∉ (lookupReg [("a", [1, 2, 1])] "a").getD []
      ∧ (unsubscribeReg [("a", [1, 2, 1])] "a" 9).1 = [("a", [1, 2, 1])]
      ∧ (unsubscribeReg [("a", [1, 2, 1])] "a" 9).2
          = UnsubLog.notFoundWarning) := by
  refine ⟨⟨by decide, by decide, ?_⟩, by decide, ?_, ?_⟩
  · exact ((C4_unsubscribe_behavior [("a", [1, 2, 1])] "a" 1).2.2.2
      [1, 2, 1] (by decide) (by decide)).1
  · exact (C4_unsubscribe_behavior [("a", [1, 2, 1])] "a" 9).1 (by decide)
  · exact (C4_unsubscribe_behavior [("a", [1, 2, 1])] "a" 9).2.2.1
      [1, 2, 1] (by decide) (by decide)

/-- C10: calling `get_subscribers_count` with the empty string behaves like
omitting the argument — Python's `if event_type:` is false for `""` — so the
result is the total count summed over all types, not the length of the entry
registered under `""` (on the concrete registry below the two differ:
3 versus 1). -/
theorem C10_empty_string_total (reg : List (String × List Nat)) :
    get_subscribers_count reg (some "") = get_subscribers_count reg none
    ∧ get_subscribers_count reg none
        = (reg.map (fun kv => kv.2.length)).sum
    ∧ get_subscribers_count [("", [1]), ("a", [2, 3])] (some "") = 3
    ∧ ((lookupReg [("", [1]), ("a", [2, 3])] "").getD []).length = 1 := by
  refine ⟨?_, rfl, by decide, by decide⟩
  rw [get_subscribers_count, if_pos rfl]
  rfl

/-- C5: `battle_started` increments the count and records the timestamp;
`battle_ended` increments wins on `"won"`, losses on `"lost"`, and neither
on any other or missing result; on the three-battle scenario with results
won, lost, won the snapshot is `total_battles = 3`, `battles_won = 2`,
`battles_lost = 1`, `win_rate = 2/3`. -/
theorem C5_battle_counter (s : BattleState) (ev evw evl : Event)
    (hw : evw.data.result = some "won")
    (hlo : evl.data.result = some "lost")
    (hno : ev.data.result.getD "unknown" ≠ "won")
    (hno2 : ev.data.result.getD "unknown" ≠ "lost") :
    (∀ e, on_battle_started s e
        = { s with battle_count := s.battle_count + 1,
                   last_battle_time := some e.timestamp })
    ∧ on_battle_ended s evw = { s with battles_won := s.battles_won + 1 }
    ∧ on_battle_ended s evl = { s with battles_lost := s.battles_lost + 1 }
    ∧ on_battle_ended s ev = s
    ∧ battleStatistics (battleScenario.foldl battleStep initBattle)
        = { total_battles := 3, battles_won := 2, battles_lost := 1,
            win_rate := 2 / 3, last_battle_time := some 3 } := by
  refine ⟨fun e => rfl, ?_, ?_, ?_, ?_⟩
  · simp [on_battle_ended, hw]
  · simp [on_battle_ended, hlo]
  · simp only [on_battle_ended, if_neg hno, if_neg hno2]
  · have hfold : battleScenario.foldl battleStep initBattle
        = { battle_count := 3, battles_won := 2, battles_lost := 1,
            last_battle_time := some 3 } := by decide
    rw [hfold, battleStatistics]
    simp only [BattleStats.mk.injEq]
    norm_num

/-- Witness for `C5_battle_counter` at concrete `battle_ended` payloads
`"won"`, `"lost"` and `"draw"`. -/
theorem C5_battle_counter_witness :
    (evWon.data.result = some "won"
      ∧ evLost.data.result = some "lost"
      ∧ evDraw.data.result.getD "unknown" ≠ "won"
      ∧ evDraw.data.result.getD "unknown" ≠ "lost")
    ∧ on_battle_ended initBattle evDraw = initBattle := by
  refine ⟨⟨by decide, by decide, by decide, by decide⟩, ?_⟩
  exact (C5_battle_counter initBattle evDraw evWon evLost
    (by decide) (by decide) (by decide) (by decide)).2.2.2.1

/-- C6: damage with amount `d` clamps health at 0 and accumulates the raw
amount; healing with amount `h` clamps at `max_health` and accumulates the
raw amount; `player_fainted` forces health to 0 and increments knockouts in
any state; `net_damage = damage_taken - healing_received`; the
25/15/heal-30 scenario from health 100 traces 100, 75, 60, 90 with
`net_damage = 10`. -/
theorem C6_health_monitor (s : HealthState) (evd evh ev : Event)
    (d h : Int) (hd : evd.data.damage = some d)
    (hh : evh.data.healing = some h) :
    on_player_damaged s evd
        = { s with damage_taken := s.damage_taken + d,
                   current_health := max 0 (s.current_health - d) }
    ∧ on_player_healed s evh
        = { s with healing_received := s.healing_received + h,
                   current_health := min s.max_health (s.current_health + h) }
    ∧ on_player_fainted s ev
        = { s with knockouts := s.knockouts + 1, current_health := 0 }
    ∧ (healthStatistics s).net_damage = s.damage_taken - s.healing_received
    ∧ initHealth.current_health = 100
    ∧ ((healthScenario.take 1).foldl healthStep initHealth).current_health = 75
    ∧ ((healthScenario.take 2).foldl healthStep initHealth).current_health = 60
    ∧ (healthScenario.foldl healthStep initHealth).current_health = 90
    ∧ (healthStatistics (healthScenario.foldl healthStep initHealth)).net_damage
        = 10 := by
  refine ⟨?_, ?_, rfl, rfl, rfl, by decide, by decide, by decide, by decide⟩
  · simp [on_player_damaged, hd]
  · simp [on_player_healed, hh]

/-- Witness for `C6_health_monitor` at concrete damage/heal payloads. -/
theorem C6_health_monitor_witness :
    (evDamage25.data.damage = some 25 ∧ evHeal30.data.healing = some 30)
    ∧ on_player_damaged initHealth evDamage25
      = { initHealth with
            damage_taken := initHealth.damage_taken + 25,
            current_health := max 0 (initHealth.current_health - 25) } := by
  refine ⟨⟨by decide, by decide⟩, ?_⟩
  exact (C6_health_monitor initHealth evDamage25 evHeal30 evFaint 25 30
    (by decide) (by decide)).1

/-- C7: `game_resumed` with no open pause is a no-op; `get_statistics`
before any `game_started` yields the distinguished not-started snapshot;
the start/pause/resume/end scenario yields `pause_count = 1`,
`total_pause_duration = 5`, `total_duration = 20`, `active_duration = 15`. -/
theorem C7_time_tracker (s1 s2 : TimeState) (ev : Event) (now : Int)
    (h1 : s1.current_pause_start = none) (h2 : s2.start_time = none) :
    on_game_resumed s1 ev = s1
    ∧ timeStatistics s2 now = TimeStats.notStarted
    ∧ ∀ t0 : Int,
        timeStatistics ((timeScenario t0).foldl timeStep initTime) now
          = TimeStats.running t0 (some (t0 + 20)) 20 15 1 5 := by
  refine ⟨?_, ?_, ?_⟩
  · rw [on_game_resumed, h1]
  · rw [timeStatistics, h2]
  · intro t0
    simp [timeScenario, timeStep, on_game_started, on_game_ended,
      on_game_paused, on_game_resumed, initTime, timeStatistics,
      TimeStats.running.injEq]

/-- Witness for `C7_time_tracker`: the freshly constructed tracker has no
open pause and no start time, so resuming it at time 3 changes nothing and
its statistics are the not-started snapshot. -/
theorem C7_time_tracker_witness :
    (initTime.current_pause_start = none ∧ initTime.start_time = none)
    ∧ on_game_resumed initTime
        { event_type := "game_resumed", data := {}, timestamp := 3 } = initTime
    ∧ timeStatistics initTime 42 = TimeStats.notStarted := by
  refine ⟨⟨rfl, rfl⟩, ?_, ?_⟩
  · exact (C7_time_tracker initTime initTime
      { event_type := "game_resumed", data := {}, timestamp := 3 } 42
      rfl rfl).1
  · exact (C7_time_tracker initTime initTime
      { event_type := "game_resumed", data := {}, timestamp := 3 } 42
      rfl rfl).2.1

/-- C8 counterexample: in the reachable started-but-not-ended state,
`GameTimeTracker.get_statistics` reads the current clock
(`end = self.end_time or datetime.now()`), so two consecutive calls with no
intervening events but different clock readings return different
snapshots — the claimed idempotence fails. -/
theorem C8_clock_counterexample :
    timeStatistics (on_game_started initTime
      { event_type := "game_started", data := {}, timestamp := 0 }) 0
    ≠ timeStatistics (on_game_started initTime
      { event_type := "game_started", data := {}, timestamp := 0 }) 1 := by
  decide

/-- C8 (amended): every `get_statistics` is a pure read — it mutates no
processor state, which the functional embedding captures by its type — and
two consecutive calls with no intervening events return equal snapshots for
every processor except the `GameTimeTracker` while a game is started and not
ended; the tracker's snapshot is independent of the clock reading whenever
the game has not started or has ended (and in the started-not-ended state
two calls agree exactly when they read the same clock instant). -/
theorem C8_statistics_clock_free (s : TimeState) (n1 n2 : Int)
    (h : s.start_time = none ∨ s.end_time ≠ none) :
    timeStatistics s n1 = timeStatistics s n2 := by
  rcases hs : s.start_time with _ | st
  · rw [timeStatistics, hs, timeStatistics, hs]
  · rcases h with h | h
    · rw [hs] at h
      cases h
    · rcases he : s.end_time with _ | e
      · exact absurd he h
      · rw [timeStatistics, hs, he, timeStatistics, hs, he]
        rfl

/-- Witness for `C8_statistics_clock_free`: once the game has ended, the
snapshot no longer depends on the clock. -/
theorem C8_statistics_clock_free_witness :
    ((on_game_ended (on_game_started initTime
        { event_type := "game_started", data := {}, timestamp := 0 })
        { event_type := "game_ended", data := {}, timestamp := 9 }).start_time
          = none
      ∨ (on_game_ended (on_game_started initTime
          { event_type := "game_started", data := {}, timestamp := 0 })
          { event_type := "game_ended", data := {}, timestamp := 9 }).end_time
            ≠ none)
    ∧ timeStatistics (on_game_ended (on_game_started initTime
        { event_type := "game_started", data := {}, timestamp := 0 })
        { event_type := "game_ended", data := {}, timestamp := 9 }) 10
      = timeStatistics (on_game_ended (on_game_started initTime
          { event_type := "game_started", data := {}, timestamp := 0 })
          { event_type := "game_ended", data := {}, timestamp := 9 }) 11 := by
  refine ⟨Or.inr (by decide), ?_⟩
  exact C8_statistics_clock_free _ 10 11 (Or.inr (by decide))

/-- C9 counterexample: a report triggered by `game_ended` is produced
(returned by the same `generate_report` aggregation) yet
`reports_generated` stays 0 — the counter does not count reports produced
through the `game_ended` trigger, refuting "counts every report it has
produced, through either trigger". -/
theorem C9_uncounted_report_counterexample :
    rg_on_game_ended [("battle_counter", some (1 : Nat))] 5
        { reports_generated := 0 }
      = ({ reports_generated := 0 },
         { generated_at := 5, statistics := [("battle_counter", 1)] }) := by
  decide

/-- C9 (amended): both the `generate_report` and the `game_ended` trigger
run the same aggregation `generate_report` — every registered processor
exposing a statistics method has its snapshot placed under its name and
`generated_at` is stamped with the current instant — but `reports_generated`
counts only the reports produced via the `generate_report` trigger; a report
produced by the `game_ended` trigger leaves the counter unchanged. -/
theorem C9_report_triggers {V : Type} (procs : Processors V) (now : Int)
    (s : RGState) (n : String) (v : V)
    (hn : (n, some v) ∈ procs) :
    (on_generate_report procs now s).2 = generate_report procs now
    ∧ (rg_on_game_ended procs now s).2 = generate_report procs now
    ∧ (generate_report procs now).generated_at = now
    ∧ (n, v) ∈ (generate_report procs now).statistics
    ∧ rgStatistics (on_generate_report procs now s).1 = rgStatistics s + 1
    ∧ rgStatistics (rg_on_game_ended procs now s).1 = rgStatistics s := by
  refine ⟨rfl, rfl, rfl, ?_, rfl, rfl⟩
  exact List.mem_filterMap.mpr ⟨(n, some v), hn, rfl⟩

/-- Witness for `C9_report_triggers` on a two-processor registry holding
snapshots 7 and 9, where the second processor exposes no statistics
method. -/
theorem C9_report_triggers_witness :
    (("battle_counter", some (7 : Nat)) ∈
        [("battle_counter", some (7 : Nat)), ("wrapper_entry", (none : Option Nat))])
    ∧ ("battle_counter", (7 : Nat)) ∈
        (generate_report
          [("battle_counter", some (7 : Nat)), ("wrapper_entry", (none : Option Nat))]
          4).statistics
    ∧ rgStatistics (on_generate_report
        [("battle_counter", some (7 : Nat)), ("wrapper_entry", (none : Option Nat))]
        4 { reports_generated := 2 }).1 = 3 := by
  refine ⟨by decide, ?_, ?_⟩
  · exact (C9_report_triggers
      [("battle_counter", some (7 : Nat)), ("wrapper_entry", (none : Option Nat))]
      4 { reports_generated := 2 } "battle_counter" 7
      (by decide)).2.2.2.1
  · exact (C9_report_triggers
      [("battle_counter", some (7 : Nat)), ("wrapper_entry", (none : Option Nat))]
      4 { reports_generated := 2 } "battle_counter" 7
      (by decide)).2.2.2.2.1
